import Mathlib

/-!
Verification development for the saas-review-scraper repository.

The definitions below are a shallow embedding of the Python sources:
machine-level collaborators (HTTP transport, BeautifulSoup selector
queries, the Selenium driver) are abstracted into oracle parameters,
while every piece of control flow and data construction written in the
repository itself (src/scrapers/base_scraper.py, g2_scraper.py,
capterra_scraper.py) is translated faithfully.  Python exceptions are
modelled with Except, Python None with Option, and datetime values with
an explicit calendar-date structure.
-/

/-- Model of a Python datetime: year, month, day, plus the seconds
elapsed within the day (the sources only ever construct midnight values
except for datetime.now arithmetic, where the time component survives
timedelta subtraction). -/
structure DateTime where
  y : Nat
  m : Nat
  d : Nat
  secs : Nat
deriving DecidableEq, Repr

/-- Gregorian leap-year test, as Python datetime uses. -/
def isLeap (y : Nat) : Bool :=
  y % 4 = 0 && (y % 100 ≠ 0 || y % 400 = 0)

/-- Number of days in a month, as Python datetime validates. -/
def daysInMonth (y m : Nat) : Nat :=
  if m = 2 then (if isLeap y then 29 else 28)
  else if m = 4 || m = 6 || m = 9 || m = 11 then 30
  else 31

/-- Model of the datetime constructor: returns none exactly when Python
datetime(y, m, d) raises ValueError (component out of range, including
the MINYEAR/MAXYEAR bounds 1..9999). -/
def mkDatetimeI (y m d : Int) : Option DateTime :=
  if 1 ≤ y ∧ y ≤ 9999 ∧ 1 ≤ m ∧ m ≤ 12 ∧ 1 ≤ d ∧ d ≤ (daysInMonth y.toNat m.toNat : Int) then
    some ⟨y.toNat, m.toNat, d.toNat, 0⟩
  else
    none

/-- Lexicographic comparison of datetimes, mirroring Python datetime
ordering. -/
def dtLe (a b : DateTime) : Bool :=
  if a.y < b.y then true else if b.y < a.y then false
  else if a.m < b.m then true else if b.m < a.m then false
  else if a.d < b.d then true else if b.d < a.d then false
  else if a.secs ≤ b.secs then true else false

/-- Strict lexicographic comparison of datetimes. -/
def dtLt (a b : DateTime) : Bool :=
  if a.y < b.y then true else if b.y < a.y then false
  else if a.m < b.m then true else if b.m < a.m then false
  else if a.d < b.d then true else if b.d < a.d then false
  else if a.secs < b.secs then true else false

/-- Step one calendar day backwards; none when the result would fall
before year 1 (Python raises OverflowError there). -/
def prevDay (dt : DateTime) : Option DateTime :=
  if 1 < dt.d then some ⟨dt.y, dt.m, dt.d - 1, dt.secs⟩
  else if 1 < dt.m then some ⟨dt.y, dt.m - 1, daysInMonth dt.y (dt.m - 1), dt.secs⟩
  else if 1 < dt.y then some ⟨dt.y - 1, 12, 31, dt.secs⟩
  else none

/-- Model of current_date - timedelta(days=n): the time-of-day survives,
only the calendar date moves. -/
def subDays : DateTime → Nat → Option DateTime
  | dt, 0 => some dt
  | dt, n + 1 =>
    match prevDay dt with
    | none => none
    | some d2 => subDays d2 n

/-- One bounded unfolding of the while-loop in
BaseScraper._parse_relative_date: while new_month <= 0, add 12 to the
month and subtract 1 from the year.  The counter only bounds the
recursion depth; it is chosen large enough that the loop always exits
through its own condition. -/
def monthWhileAux : Nat → Int → Int → Int × Int
  | 0, nm, ny => (nm, ny)
  | f + 1, nm, ny => if nm ≤ 0 then monthWhileAux f (nm + 12) (ny - 1) else (nm, ny)

/-- The month-normalization while-loop of
BaseScraper._parse_relative_date.  The loop runs at most
ceil((1 - new_month) / 12) times, which the counter dominates, so this
equals the unbounded while-loop. -/
def monthWhile (nm ny : Int) : Int × Int :=
  monthWhileAux (1 - nm).toNat nm ny

/-- ASCII digit test matching the regex class backslash-d used by
strptime and by the relative-date number search. -/
def isDig (c : Char) : Bool := '0' ≤ c && c ≤ '9'

/-- Numeric value of a digit character. -/
def digVal (c : Char) : Nat := c.toNat - 48

/-- Value of a digit string, as Python int() computes on a digit run. -/
def digitsToNat (l : List Char) : Nat :=
  l.foldl (fun a c => a * 10 + digVal c) 0

/-- Model of the Python str.strip call: remove leading and trailing
whitespace. -/
def pyStrip (l : List Char) : List Char :=
  ((l.dropWhile Char.isWhitespace).reverse.dropWhile Char.isWhitespace).reverse

/-- Model of the strptime directive for a four-digit year: the pattern
matches exactly four digits. -/
def p4 : List Char → Option (Nat × List Char)
  | c1 :: c2 :: c3 :: c4 :: rest =>
    if isDig c1 && isDig c2 && isDig c3 && isDig c4 then
      some (digVal c1 * 1000 + digVal c2 * 100 + digVal c3 * 10 + digVal c4, rest)
    else none
  | _ => none

/-- Model of the strptime month directive: one or two digits giving a
value 1..12, longest alternative first as in the underlying regex. -/
def pM2 : List Char → Option (Nat × List Char)
  | c1 :: c2 :: rest =>
    if c1 = '1' ∧ ('0' ≤ c2 ∧ c2 ≤ '2') then some (10 + digVal c2, rest)
    else if c1 = '0' ∧ ('1' ≤ c2 ∧ c2 ≤ '9') then some (digVal c2, rest)
    else if '1' ≤ c1 ∧ c1 ≤ '9' then some (digVal c1, c2 :: rest)
    else none
  | [c1] => if '1' ≤ c1 ∧ c1 ≤ '9' then some (digVal c1, []) else none
  | [] => none

/-- Model of the strptime day directive: one or two digits giving a
value 1..31, longest alternative first as in the underlying regex. -/
def pD2 : List Char → Option (Nat × List Char)
  | c1 :: c2 :: rest =>
    if c1 = '3' ∧ ('0' ≤ c2 ∧ c2 ≤ '1') then some (30 + digVal c2, rest)
    else if ('1' ≤ c1 ∧ c1 ≤ '2') ∧ ('0' ≤ c2 ∧ c2 ≤ '9') then
      some (digVal c1 * 10 + digVal c2, rest)
    else if c1 = '0' ∧ ('1' ≤ c2 ∧ c2 ≤ '9') then some (digVal c2, rest)
    else if '1' ≤ c1 ∧ c1 ≤ '9' then some (digVal c1, c2 :: rest)
    else none
  | [c1] => if '1' ≤ c1 ∧ c1 ≤ '9' then some (digVal c1, []) else none
  | [] => none

/-- Match one literal character of a strptime format. -/
def pLit (c : Char) : List Char → Option (List Char)
  | x :: rest => if x = c then some rest else none
  | [] => none

/-- Match a run of one or more whitespace characters, as strptime
compiles a space in the format string. -/
def pWs1 : List Char → Option (List Char)
  | x :: rest =>
    if x.isWhitespace then some (rest.dropWhile Char.isWhitespace) else none
  | [] => none

/-- Case-insensitive match of a fixed lower-case pattern at the head of
the input, as strptime matches month names. -/
def matchCI : List Char → List Char → Option (List Char)
  | [], l => some l
  | _ :: _, [] => none
  | p :: ps, c :: cs => if c.toLower = p then matchCI ps cs else none

/-- Full English month names with their numbers, for the strptime full
month-name directive. -/
def monthNamesFull : List (List Char × Nat) :=
  [("january".data, 1), ("february".data, 2), ("march".data, 3), ("april".data, 4),
   ("may".data, 5), ("june".data, 6), ("july".data, 7), ("august".data, 8),
   ("september".data, 9), ("october".data, 10), ("november".data, 11),
   ("december".data, 12)]

/-- Abbreviated English month names with their numbers, for the strptime
abbreviated month-name directive. -/
def monthNamesAbbr : List (List Char × Nat) :=
  [("jan".data, 1), ("feb".data, 2), ("mar".data, 3), ("apr".data, 4),
   ("may".data, 5), ("jun".data, 6), ("jul".data, 7), ("aug".data, 8),
   ("sep".data, 9), ("oct".data, 10), ("nov".data, 11), ("dec".data, 12)]

/-- Try each month name in turn, returning the month number and the
rest of the input. -/
def pMonthFrom : List (List Char × Nat) → List Char → Option (Nat × List Char)
  | [], _ => none
  | (pat, n) :: rest, l =>
    match matchCI pat l with
    | some r => some (n, r)
    | none => pMonthFrom rest l

/-- Model of strptime with format string Y/m/d. -/
def fYmdSlash (l : List Char) : Option (Nat × Nat × Nat) :=
  (p4 l).bind fun (yv, r1) =>
  (pLit '/' r1).bind fun r2 =>
  (pM2 r2).bind fun (mv, r3) =>
  (pLit '/' r3).bind fun r4 =>
  (pD2 r4).bind fun (dv, r5) =>
  if r5.isEmpty then some (yv, mv, dv) else none

/-- Model of strptime with format string m/d/Y. -/
def fMdySlash (l : List Char) : Option (Nat × Nat × Nat) :=
  (pM2 l).bind fun (mv, r1) =>
  (pLit '/' r1).bind fun r2 =>
  (pD2 r2).bind fun (dv, r3) =>
  (pLit '/' r3).bind fun r4 =>
  (p4 r4).bind fun (yv, r5) =>
  if r5.isEmpty then some (yv, mv, dv) else none

/-- Model of strptime with format string Y-m-d. -/
def fYmdDash (l : List Char) : Option (Nat × Nat × Nat) :=
  (p4 l).bind fun (yv, r1) =>
  (pLit '-' r1).bind fun r2 =>
  (pM2 r2).bind fun (mv, r3) =>
  (pLit '-' r3).bind fun r4 =>
  (pD2 r4).bind fun (dv, r5) =>
  if r5.isEmpty then some (yv, mv, dv) else none

/-- Model of strptime with format string m-d-Y. -/
def fMdyDash (l : List Char) : Option (Nat × Nat × Nat) :=
  (pM2 l).bind fun (mv, r1) =>
  (pLit '-' r1).bind fun r2 =>
  (pD2 r2).bind fun (dv, r3) =>
  (pLit '-' r3).bind fun r4 =>
  (p4 r4).bind fun (yv, r5) =>
  if r5.isEmpty then some (yv, mv, dv) else none

/-- Model of strptime with format string B d, Y (full month name). -/
def fMonthFull (l : List Char) : Option (Nat × Nat × Nat) :=
  (pMonthFrom monthNamesFull l).bind fun (mv, r1) =>
  (pWs1 r1).bind fun r2 =>
  (pD2 r2).bind fun (dv, r3) =>
  (pLit ',' r3).bind fun r4 =>
  (pWs1 r4).bind fun r5 =>
  (p4 r5).bind fun (yv, r6) =>
  if r6.isEmpty then some (yv, mv, dv) else none

/-- Model of strptime with format string b d, Y (abbreviated month). -/
def fMonthAbbr (l : List Char) : Option (Nat × Nat × Nat) :=
  (pMonthFrom monthNamesAbbr l).bind fun (mv, r1) =>
  (pWs1 r1).bind fun r2 =>
  (pD2 r2).bind fun (dv, r3) =>
  (pLit ',' r3).bind fun r4 =>
  (pWs1 r4).bind fun r5 =>
  (p4 r5).bind fun (yv, r6) =>
  if r6.isEmpty then some (yv, mv, dv) else none

/-- One strptime attempt: the format must consume the whole string and
the resulting components must form a valid datetime; otherwise Python
raises ValueError, which BaseScraper.parse_date catches and skips. -/
def tryFmt (f : List Char → Option (Nat × Nat × Nat)) (l : List Char) : Option DateTime :=
  match f l with
  | none => none
  | some (yv, mv, dv) => mkDatetimeI yv mv dv

/-- The loop over the six formats of BaseScraper.parse_date, in source
order. -/
def tryFormats (l : List Char) : Option DateTime :=
  match tryFmt fYmdSlash l with
  | some dt => some dt
  | none =>
  match tryFmt fMdySlash l with
  | some dt => some dt
  | none =>
  match tryFmt fYmdDash l with
  | some dt => some dt
  | none =>
  match tryFmt fMdyDash l with
  | some dt => some dt
  | none =>
  match tryFmt fMonthFull l with
  | some dt => some dt
  | none => tryFmt fMonthAbbr l

/-- Exact match of a pattern at the head of a list. -/
def startsList : List Char → List Char → Bool
  | [], _ => true
  | _ :: _, [] => false
  | p :: ps, x :: xs => p = x && startsList ps xs

/-- Test whether pattern occurs as a contiguous sublist, modelling the
Python in-operator on strings. -/
def hasSub (pat : List Char) : List Char → Bool
  | [] => pat.isEmpty
  | c :: cs => startsList pat (c :: cs) || hasSub pat cs

/-- Model of re.search for the first run of digits in the string,
returning its integer value. -/
def firstNat (l : List Char) : Option Nat :=
  match l.dropWhile (fun c => !isDig c) with
  | [] => none
  | c :: cs => some (digitsToNat (c :: (cs.takeWhile isDig)))

/-- Model of BaseScraper._parse_relative_date: the year branch, then the
month branch with the month-normalization while-loop, then the day
branch with timedelta subtraction.  A ValueError or OverflowError from
datetime construction is uncaught and modelled with Except.error. -/
def parseRelativeDate (now : DateTime) (l : List Char) : Except Unit (Option DateTime) :=
  let lower := l.map Char.toLower
  if hasSub "year".data lower then
    match firstNat l with
    | some n =>
      match mkDatetimeI ((now.y : Int) - (n : Int)) (now.m : Int) (now.d : Int) with
      | some dt => Except.ok (some dt)
      | none => Except.error ()
    | none => Except.ok none
  else if hasSub "month".data lower then
    match firstNat l with
    | some n =>
      let p := monthWhile ((now.m : Int) - (n : Int)) (now.y : Int)
      match mkDatetimeI p.2 p.1 (now.d : Int) with
      | some dt => Except.ok (some dt)
      | none => Except.error ()
    | none => Except.ok none
  else if hasSub "day".data lower then
    match firstNat l with
    | some n =>
      match subDays now n with
      | some dt => Except.ok (some dt)
      | none => Except.error ()
    | none => Except.ok none
  else Except.ok none

/-- Model of BaseScraper.parse_date: the empty-string guard, the strip,
the six absolute formats in order, then the relative-date fallback
(whose datetime construction errors propagate out). -/
def parse_date (now : DateTime) (s : String) : Except Unit (Option DateTime) :=
  if s.data.isEmpty then Except.ok none
  else
    let l := pyStrip s.data
    match tryFormats l with
    | some dt => Except.ok (some dt)
    | none => parseRelativeDate now l

/-- A scraped record: a Python dict whose values are strings or None
(None arises from BeautifulSoup attribute lookups that miss). -/
def Record : Type := List (String × Option String)

instance : DecidableEq Record := by
  unfold Record
  infer_instance

/-- Model of review.get(key, default-empty-string): the default is used
only when the key is absent; a stored None is returned as is. -/
def recGet (r : Record) (k : String) : Option String :=
  match List.lookup k r with
  | some v => v
  | none => some ""

/-- Apply parse_date to a dict value that may be Python None: None is
falsy, so parse_date returns None immediately. -/
def parseDatePy (now : DateTime) (v : Option String) : Except Unit (Option DateTime) :=
  match v with
  | none => Except.ok none
  | some s => parse_date now s

/-- The per-review loop body of BaseScraper.filter_reviews_by_date:
parse each review date (a raised exception propagates), keep the review
when the date parsed and lies within the inclusive bounds. -/
def filterGo (now : DateTime) (sd ed : DateTime) : List Record → Except Unit (List Record)
  | [] => Except.ok []
  | r :: rs =>
    match parseDatePy now (recGet r "date") with
    | Except.error u => Except.error u
    | Except.ok none => filterGo now sd ed rs
    | Except.ok (some dd) =>
      match filterGo now sd ed rs with
      | Except.error u => Except.error u
      | Except.ok rest =>
        if dtLe sd dd && dtLe dd ed then Except.ok (r :: rest) else Except.ok rest

/-- Model of BaseScraper.filter_reviews_by_date: parse both bounds
first (either parse may raise), return the input unchanged when either
bound parses to None, otherwise run the filtering loop. -/
def filter_reviews_by_date (now : DateTime) (reviews : List Record) (s e : String) :
    Except Unit (List Record) :=
  match parse_date now s with
  | Except.error u => Except.error u
  | Except.ok sdO =>
    match parse_date now e with
    | Except.error u => Except.error u
    | Except.ok edO =>
      match sdO, edO with
      | some sd, some ed => filterGo now sd ed reviews
      | some _, none => Except.ok reviews
      | none, _ => Except.ok reviews

/-- Outcome of one transport attempt: a 200 response with a body, a
non-success status, or a raised exception. -/
inductive AttemptR where
  | ok (body : String)
  | httpFail
  | exn
deriving DecidableEq, Repr

/-- The direct-session retry loop of BaseScraper.make_request: for each
attempt, a 200 response returns its text, a non-success status or an
exception sleeps and retries; after exhausting the bound None is
returned. -/
def directGo (attempts : Nat → AttemptR) : Nat → Nat → Option String
  | 0, _ => none
  | f + 1, i =>
    match attempts i with
    | AttemptR.ok b => some b
    | AttemptR.httpFail => directGo attempts f (i + 1)
    | AttemptR.exn => directGo attempts f (i + 1)

/-- Model of BaseScraper.make_request: with an api token a single
Crawlbase request is made (its text on a 200 status, None otherwise,
and a raised exception propagates); without a token the retry loop
runs with the given bound. -/
def make_request (apiToken : Option String) (attempts : Nat → AttemptR) (maxRetries : Nat) :
    Except Unit (Option String) :=
  match apiToken with
  | some _ =>
    match attempts 0 with
    | AttemptR.ok b => Except.ok (some b)
    | AttemptR.httpFail => Except.ok none
    | AttemptR.exn => Except.error ()
  | none => Except.ok (directGo attempts maxRetries 0)

/-- The per-review element data G2Scraper.parse_review_page extracts
with BeautifulSoup before building the review dict: optional author
text, optional rating element with its optional content attribute, the
optional pjax element with its text and optional href attribute, the
profile-title texts, and the optional time-element text. -/
structure G2Elem where
  author : Option String
  stars : Option (Option String)
  pjax : Option (String × Option String)
  profileTitles : List String
  timeText : Option String

/-- Model of the regex substitution removing every character that is
not an ASCII letter or a space from the review text. -/
def stripNonAlpha (s : String) : String :=
  ⟨s.data.filter (fun c => (('a' ≤ c && c ≤ 'z') || ('A' ≤ c && c ≤ 'Z')) || c = ' ')⟩

/-- Model of the space-join over the profile-title texts. -/
def joinSpace : List String → String
  | [] => ""
  | [s] => s
  | s :: rest => s ++ " " ++ joinSpace rest

/-- The review dict literal of G2Scraper.parse_review_page, key by key
in source order; a missing element yields an empty string, while a
present element with a missing attribute yields Python None. -/
def g2MkReview (e : G2Elem) : Record :=
  [("reviewer_name", some (e.author.getD "")),
   ("title", some ""),
   ("description", some (match e.pjax with
     | some (t, _) => stripNonAlpha t
     | none => "")),
   ("rating", match e.stars with
     | some a => a
     | none => some ""),
   ("date", some (e.timeText.getD "")),
   ("profile_title", some (joinSpace e.profileTitles)),
   ("review_link", match e.pjax with
     | some (_, h) => h
     | none => some "")]

/-- The product header fields collected once on page 1 of a G2 job. -/
structure G2Product where
  productName : String
  stars : String
  totalReviews : String

/-- One parsed G2 page as produced by parse_review_page: the product
header, the reviews of the page, and the next-page flag. -/
structure G2PageData where
  product : G2Product
  reviews : List Record
  hasNext : Bool

/-- Outcome of parse_review_page on a payload: the error dict from its
blanket exception handler, or the parsed page data. -/
inductive G2ParseOut where
  | perr (msg : String)
  | pok (pg : G2PageData)

/-- JSON-like values of the result dict returned by
G2Scraper.scrape_reviews. -/
inductive JVal where
  | js (s : String)
  | jn (n : Nat)
  | jarr (l : List Record)
deriving DecidableEq

/-- The while-loop of G2Scraper.scrape_reviews, driven by an attempts
oracle per page (fed through make_request with its default bound of 5)
and a parse oracle for the fetched payload.  Returns the product info
(set on page 1 only), the accumulated raw reviews, and the list of page
numbers that were fetched.  A fetch returning None, a raised fetch
exception, or a parse error dict breaks the loop; otherwise the loop
continues while the page reports a next page. -/
def g2Go (token : Option String) (attempts : Nat → Nat → AttemptR)
    (parsePage : String → G2ParseOut) : Nat → Nat → Option G2Product × List Record × List Nat
  | 0, _ => (none, [], [])
  | fuel + 1, cur =>
    match make_request token (attempts cur) 5 with
    | Except.error _ => (none, [], [cur])
    | Except.ok none => (none, [], [cur])
    | Except.ok (some html) =>
      match parsePage html with
      | G2ParseOut.perr _ => (none, [], [cur])
      | G2ParseOut.pok pg =>
        let pinfo : Option G2Product := if cur = 1 then some pg.product else none
        if pg.hasNext then
          let rest := g2Go token attempts parsePage fuel (cur + 1)
          (pinfo <|> rest.1, pg.reviews ++ rest.2.1, cur :: rest.2.2)
        else (pinfo, pg.reviews, [cur])

/-- Model of G2Scraper.scrape_reviews: run the pagination loop, filter
the accumulated reviews by date (this call sits outside the loop and
outside any handler, so a date-parsing exception propagates), and build
the result dict by spreading product_info and adding the reviews and
their count.  No error key is ever present. -/
def g2ScrapeReviews (token : Option String) (attempts : Nat → Nat → AttemptR)
    (parsePage : String → G2ParseOut) (fuel : Nat) (now : DateTime) (s e : String) :
    Except Unit (List (String × JVal)) :=
  match filter_reviews_by_date now (g2Go token attempts parsePage fuel 1).2.1 s e with
  | Except.error u => Except.error u
  | Except.ok filtered =>
    Except.ok ((match (g2Go token attempts parsePage fuel 1).1 with
      | some pi => [("product_name", JVal.js pi.productName),
                    ("stars", JVal.js pi.stars),
                    ("total_reviews", JVal.js pi.totalReviews)]
      | none => []) ++
      [("all_reviews", JVal.jarr filtered),
       ("total_scraped_reviews", JVal.jn filtered.length)])

/-- The pages the G2 loop fetched, for stating pagination claims. -/
def g2FetchedPages (token : Option String) (attempts : Nat → Nat → AttemptR)
    (parsePage : String → G2ParseOut) (fuel : Nat) : List Nat :=
  (g2Go token attempts parsePage fuel 1).2.2

/-- Model of CapterraScraper._parse_date: the same strptime semantics,
but trying only the four formats B d Y, b d Y, m/d/Y, Y-m-d in that
order, and returning None (never raising) when none matches. -/
def capterraParseDate (s : String) : Option DateTime :=
  match tryFmt fMonthFull s.data with
  | some dt => some dt
  | none =>
  match tryFmt fMonthAbbr s.data with
  | some dt => some dt
  | none =>
  match tryFmt fMdySlash s.data with
  | some dt => some dt
  | none => tryFmt fYmdDash s.data

/-- Zero-padded decimal rendering of a number to a given width, as
strftime pads date components. -/
def padNum (width n : Nat) : String :=
  let s := toString n
  ⟨List.replicate (width - s.data.length) '0' ++ s.data⟩

/-- Model of review_date.strftime with format Y-m-d. -/
def fmtYmd (dt : DateTime) : String :=
  padNum 4 dt.y ++ "-" ++ padNum 2 dt.m ++ "-" ++ padNum 2 dt.d

/-- The Selenium extractions CapterraScraper.scrape performs on one
review card.  Each field is the text a find_element call produced, or
none when that call raised (NoSuchElementException or similar): the
date extraction, the h3 title, the two pros selectors, the two cons
selectors, and the rating badge. -/
structure Card where
  dateText : Option String
  title : Option String
  pros1 : Option String
  pros2 : Option String
  cons1 : Option String
  cons2 : Option String
  rating : Option String

/-- The review dict literal appended by CapterraScraper.scrape for one
in-range card, with the pros/cons fallback chain, the combined review
text, the formatted date, and the rating fallback. -/
def capterraMkRecord (c : Card) (dt : DateTime) (t : String) : Record :=
  let prosText := match c.pros1 with
    | some p => p
    | none => match c.pros2 with
      | some p => p
      | none => "No pros available"
  let consText := match c.cons1 with
    | some p => p
    | none => match c.cons2 with
      | some p => p
      | none => "No cons available"
  let ratingStr := match c.rating with
    | some rt => rt ++ "/5.0"
    | none => "No rating available"
  [("source", some "Capterra"),
   ("title", some t),
   ("review", some ("Pros: " ++ prosText ++ "\n" ++ "Cons: " ++ consText)),
   ("date", some (fmtYmd dt)),
   ("rating", some ratingStr)]

/-- The per-card loop of CapterraScraper.scrape: skip a card whose date
extraction raised, skip a card whose date does not parse, count but
skip a card older than the window start, append an in-range card whose
title extraction succeeds (a raised title extraction is swallowed by
the per-card handler, skipping the card), and skip a card newer than
the window end. -/
def capterraProcessCards (sd ed : DateTime) : List Card → List Record
  | [] => []
  | c :: rest =>
    match c.dateText with
    | none => capterraProcessCards sd ed rest
    | some ds =>
      match capterraParseDate ds with
      | none => capterraProcessCards sd ed rest
      | some dt =>
        if dtLt dt sd then capterraProcessCards sd ed rest
        else if dtLe sd dt && dtLe dt ed then
          match c.title with
          | none => capterraProcessCards sd ed rest
          | some t => capterraMkRecord c dt t :: capterraProcessCards sd ed rest
        else capterraProcessCards sd ed rest

/-- The pagination while-loop of CapterraScraper.scrape with its
hardcoded max_pages of 2: the cards oracle gives the cards found on a
page (none when the wait for the review container timed out), the next
oracle tells whether the next-page navigation succeeded.  Returns the
accumulated reviews and the pages visited. -/
def capterraLoop (cards : Nat → Option (List Card)) (next : Nat → Bool) (sd ed : DateTime) :
    Nat → Nat → List Record × List Nat
  | 0, _ => ([], [])
  | fuel + 1, page =>
    if 2 < page then ([], [])
    else
      match cards page with
      | none => ([], [page])
      | some [] => ([], [page])
      | some cs =>
        let revs := capterraProcessCards sd ed cs
        if page < 2 then
          if next page then
            let rest := capterraLoop cards next sd ed fuel (page + 1)
            (revs ++ rest.1, page :: rest.2)
          else (revs, [page])
        else (revs, [page])

/-- Model of the scraping portion of CapterraScraper.scrape: the loop
starting at page 1; fuel 3 covers the two possible iterations of the
hardcoded two-page budget. -/
def capterraScrape (cards : Nat → Option (List Card)) (next : Nat → Bool) (sd ed : DateTime) :
    List Record × List Nat :=
  capterraLoop cards next sd ed 3 1

/-- Modelled from the spec: the repository contains no Deduplicator
implementation, so the dedup key of section 4.4 — the stable composite
of source, reviewer name, date and normalized description prefix — is
taken from the specification text to state the dedup claims against
the records the scrapers actually produce. -/
def normalizedDescPrefixOf (s : String) : String :=
  ⟨(s.data.map Char.toLower).take 80⟩

/-- Modelled from the spec: the composite Deduplicator key of section
4.4 applied to a scraped record, reading the canonical fields with
empty-string defaults. -/
def dedupKey (r : Record) : String × String × String × String :=
  ((recGet r "source").getD "",
   (recGet r "reviewer_name").getD "",
   (recGet r "date").getD "",
   normalizedDescPrefixOf ((recGet r "description").getD ""))

/-- The key list of a record dict, for stating schema claims. -/
def keysOf (r : Record) : List String := r.map Prod.fst

/-- Concrete clocks used by the witnesses and counterexamples below. -/
def clockJan1 : DateTime := ⟨2025, 1, 1, 0⟩

/-- The reference clock for the relative-date boundary scenario. -/
def clockMar31 : DateTime := ⟨2024, 3, 31, 0⟩

/-- C8: the shared date parser maps the three absolute-format strings
for March 3, 2024 to the same calendar date, regardless of the current
clock. -/
theorem c8_absolute_formats_agree (now : DateTime) :
    parse_date now "March 3, 2024" = Except.ok (some ⟨2024, 3, 3, 0⟩) ∧
    parse_date now "2024-03-03" = Except.ok (some ⟨2024, 3, 3, 0⟩) ∧
    parse_date now "03/03/2024" = Except.ok (some ⟨2024, 3, 3, 0⟩) :=
  ⟨rfl, rfl, rfl⟩

/-- C8 witness: the three formats evaluated at a concrete clock. -/
theorem c8_absolute_formats_agree_witness :
    parse_date clockJan1 "March 3, 2024" = Except.ok (some ⟨2024, 3, 3, 0⟩) ∧
    parse_date clockJan1 "2024-03-03" = Except.ok (some ⟨2024, 3, 3, 0⟩) ∧
    parse_date clockJan1 "03/03/2024" = Except.ok (some ⟨2024, 3, 3, 0⟩) :=
  c8_absolute_formats_agree clockJan1

/-- C10: the relative-date parser is partial: evaluating one month ago
on March 31 builds the invalid date February 31, the ValueError is
uncaught, and the exception propagates out of parse_date. -/
theorem c10_relative_month_crash :
    parseRelativeDate clockMar31 "1 month ago".data = Except.error () ∧
    parse_date clockMar31 "1 month ago" = Except.error () :=
  ⟨rfl, rfl⟩

/-- C9: when the start bound parses to None (and the end bound parse
returns, in either way), or the start bound parses and the end bound
parses to None, filter_reviews_by_date returns the input review list
unchanged with no filtering applied. -/
theorem c9_unparseable_bound_skips_filtering (now : DateTime) (reviews : List Record)
    (s e : String) :
    (∀ edO, parse_date now s = Except.ok none → parse_date now e = Except.ok edO →
      filter_reviews_by_date now reviews s e = Except.ok reviews) ∧
    (∀ sd, parse_date now s = Except.ok (some sd) → parse_date now e = Except.ok none →
      filter_reviews_by_date now reviews s e = Except.ok reviews) := by
  constructor
  · intro edO h1 h2
    unfold filter_reviews_by_date
    rw [h1, h2]
  · intro sd h1 h2
    unfold filter_reviews_by_date
    rw [h1, h2]

/-- C9 witness: a garbage start bound leaves a review list untouched,
including its out-of-range entries. -/
theorem c9_unparseable_bound_skips_filtering_witness :
    filter_reviews_by_date clockJan1 [[("date", some "1999-01-01")]] "garbage" "2024-12-31" =
      Except.ok [[("date", some "1999-01-01")]] :=
  (c9_unparseable_bound_skips_filtering clockJan1 [[("date", some "1999-01-01")]]
    "garbage" "2024-12-31").1 (some ⟨2024, 12, 31, 0⟩) rfl rfl

/-- Whether a transport attempt is a 200 success. -/
def attemptOk (a : AttemptR) : Bool :=
  match a with
  | AttemptR.ok _ => true
  | _ => false

/-- The direct-session retry loop returns the body of the first
successful attempt within the bound. -/
theorem directGo_first_success (attempts : Nat → AttemptR) :
    ∀ (f s i : Nat) (b : String), i < f →
      (∀ j, j < i → attemptOk (attempts (s + j)) = false) →
      attempts (s + i) = AttemptR.ok b →
      directGo attempts f s = some b := by
  intro f
  induction f with
  | zero => intro s i b hi; omega
  | succ f ih =>
    intro s i b hi hfail hok
    cases i with
    | zero =>
      unfold directGo
      rw [show s + 0 = s from rfl] at hok
      rw [hok]
    | succ i2 =>
      have h0 : attemptOk (attempts s) = false := by
        have := hfail 0 (by omega)
        rwa [show s + 0 = s from rfl] at this
      unfold directGo
      cases ha : attempts s with
      | ok b2 => rw [ha] at h0; simp [attemptOk] at h0
      | httpFail =>
        apply ih (s + 1) i2 b (by omega)
        · intro j hj
          have := hfail (j + 1) (by omega)
          rwa [show s + (j + 1) = s + 1 + j by omega] at this
        · rwa [show s + (i2 + 1) = s + 1 + i2 by omega] at hok
      | exn =>
        apply ih (s + 1) i2 b (by omega)
        · intro j hj
          have := hfail (j + 1) (by omega)
          rwa [show s + (j + 1) = s + 1 + j by omega] at this
        · rwa [show s + (i2 + 1) = s + 1 + i2 by omega] at hok

/-- The direct-session retry loop returns None when every attempt
within the bound fails. -/
theorem directGo_exhausts (attempts : Nat → AttemptR) :
    ∀ (f s : Nat), (∀ j, j < f → attemptOk (attempts (s + j)) = false) →
      directGo attempts f s = none := by
  intro f
  induction f with
  | zero => intro s _; rfl
  | succ f ih =>
    intro s hfail
    have h0 : attemptOk (attempts s) = false := by
      have := hfail 0 (by omega)
      rwa [show s + 0 = s from rfl] at this
    unfold directGo
    cases ha : attempts s with
    | ok b2 => rw [ha] at h0; simp [attemptOk] at h0
    | httpFail =>
      apply ih (s + 1)
      intro j hj
      have := hfail (j + 1) (by omega)
      rwa [show s + (j + 1) = s + 1 + j by omega] at this
    | exn =>
      apply ih (s + 1)
      intro j hj
      have := hfail (j + 1) (by omega)
      rwa [show s + (j + 1) = s + 1 + j by omega] at this

/-- C4 counterexample: a fetch target that fails transiently once and
then succeeds, under a retry bound of 5 (which is at least 1): on the
api-token transport make_request returns None rather than the eventual
success, even though the direct-session transport recovers the data —
so the retry bound is not honoured regardless of transport. -/
theorem c4_counterexample :
    make_request (some "token")
      (fun n => if n = 0 then AttemptR.httpFail else AttemptR.ok "data") 5 =
      Except.ok none ∧
    (fun n => if n = 0 then AttemptR.httpFail else AttemptR.ok "data") 1 =
      AttemptR.ok "data" ∧
    make_request none
      (fun n => if n = 0 then AttemptR.httpFail else AttemptR.ok "data") 5 =
      Except.ok (some "data") :=
  ⟨rfl, rfl, rfl⟩

/-- C4 amended: on the direct-session transport make_request retries up
to the configured bound — a target failing transiently fewer times than
the bound yields the eventual success body, and a target failing at
every attempt within the bound yields None; the api-token transport
performs exactly one attempt, ignoring the bound entirely. -/
theorem c4_retry_bound_direct_only :
    (∀ (attempts : Nat → AttemptR) (mr i : Nat) (b : String), i < mr →
      (∀ j, j < i → attemptOk (attempts j) = false) → attempts i = AttemptR.ok b →
      make_request none attempts mr = Except.ok (some b)) ∧
    (∀ (attempts : Nat → AttemptR) (mr : Nat),
      (∀ j, j < mr → attemptOk (attempts j) = false) →
      make_request none attempts mr = Except.ok none) ∧
    (∀ (tok : String) (attempts : Nat → AttemptR) (mr1 mr2 : Nat),
      make_request (some tok) attempts mr1 = make_request (some tok) attempts mr2) := by
  refine ⟨?_, ?_, ?_⟩
  · intro attempts mr i b hi hfail hok
    unfold make_request
    rw [directGo_first_success attempts mr 0 i b hi
      (by intro j hj; simpa using hfail j hj) (by simpa using hok)]
  · intro attempts mr hfail
    unfold make_request
    rw [directGo_exhausts attempts mr 0 (by intro j hj; simpa using hfail j hj)]
  · intro tok attempts mr1 mr2
    rfl

/-- C4 witness: the amended retry facts evaluated on a transport that
fails once and then succeeds, and on one that always fails. -/
theorem c4_retry_bound_direct_only_witness :
    make_request none (fun n => if n = 0 then AttemptR.httpFail else AttemptR.ok "x") 2 =
      Except.ok (some "x") ∧
    make_request none (fun _ => AttemptR.httpFail) 3 = Except.ok none ∧
    make_request (some "t") (fun _ => AttemptR.exn) 1 =
      make_request (some "t") (fun _ => AttemptR.exn) 9 :=
  ⟨c4_retry_bound_direct_only.1 (fun n => if n = 0 then AttemptR.httpFail else AttemptR.ok "x")
      2 1 "x" (by decide) (by decide) (by decide),
   c4_retry_bound_direct_only.2.1 (fun _ => AttemptR.httpFail) 3 (by decide),
   c4_retry_bound_direct_only.2.2 "t" (fun _ => AttemptR.exn) 1 9⟩

/-- Every review kept by the filtering loop has a parseable date lying
within the inclusive bounds. -/
theorem filterGo_mem (now sd ed : DateTime) :
    ∀ (revs out : List Record) (r : Record),
      filterGo now sd ed revs = Except.ok out → r ∈ out →
      ∃ dd, parseDatePy now (recGet r "date") = Except.ok (some dd) ∧
        dtLe sd dd = true ∧ dtLe dd ed = true := by
  intro revs
  induction revs with
  | nil =>
    intro out r h hm
    injection h with h2
    subst h2
    cases hm
  | cons a rs ih =>
    intro out r h hm
    unfold filterGo at h
    cases hp : parseDatePy now (recGet a "date") with
    | error u => rw [hp] at h; cases h
    | ok dO =>
      rw [hp] at h
      cases dO with
      | none => exact ih out r h hm
      | some dd =>
        cases hr : filterGo now sd ed rs with
        | error u => rw [hr] at h; cases h
        | ok rest =>
          rw [hr] at h
          dsimp only at h
          by_cases hc : (dtLe sd dd && dtLe dd ed) = true
          · rw [if_pos hc] at h
            injection h with h2
            subst h2
            rcases List.mem_cons.mp hm with hm1 | hm2
            · subst hm1
              simp only [Bool.and_eq_true] at hc
              exact ⟨dd, hp, hc.1, hc.2⟩
            · exact ih rest r hr hm2
          · rw [if_neg hc] at h
            injection h with h2
            subst h2
            exact ih rest r hr hm

/-- Every record the Capterra card loop appends carries a date within
the inclusive bounds, and stores that date formatted as Y-m-d. -/
theorem capterraProcess_mem (sd ed : DateTime) :
    ∀ (cards : List Card) (r : Record), r ∈ capterraProcessCards sd ed cards →
      ∃ dd, dtLe sd dd = true ∧ dtLe dd ed = true ∧ recGet r "date" = some (fmtYmd dd) := by
  intro cards
  induction cards with
  | nil => intro r hm; cases hm
  | cons c rest ih =>
    intro r hm
    unfold capterraProcessCards at hm
    cases hds : c.dateText with
    | none => rw [hds] at hm; exact ih r hm
    | some ds =>
      rw [hds] at hm
      dsimp only at hm
      cases hp : capterraParseDate ds with
      | none => rw [hp] at hm; exact ih r hm
      | some dt =>
        rw [hp] at hm
        dsimp only at hm
        by_cases hold : dtLt dt sd = true
        · rw [if_pos hold] at hm; exact ih r hm
        · rw [if_neg hold] at hm
          by_cases hin : (dtLe sd dt && dtLe dt ed) = true
          · rw [if_pos hin] at hm
            cases ht : c.title with
            | none => rw [ht] at hm; exact ih r hm
            | some t =>
              rw [ht] at hm
              rcases List.mem_cons.mp hm with hm1 | hm2
              · subst hm1
                simp only [Bool.and_eq_true] at hin
                exact ⟨dt, hin.1, hin.2, rfl⟩
              · exact ih r hm2
          · rw [if_neg hin] at hm; exact ih r hm

/-- A successful G2 scrape result holds its filtered review list under
the all_reviews key, with the filter applied to the accumulated pages. -/
theorem g2Result_allReviews (token : Option String) (attempts : Nat → Nat → AttemptR)
    (parsePage : String → G2ParseOut) (fuel : Nat) (now : DateTime) (s e : String)
    (res : List (String × JVal)) :
    g2ScrapeReviews token attempts parsePage fuel now s e = Except.ok res →
    ∃ filtered,
      filter_reviews_by_date now (g2Go token attempts parsePage fuel 1).2.1 s e =
        Except.ok filtered ∧
      List.lookup "all_reviews" res = some (JVal.jarr filtered) ∧
      List.lookup "error" res = none := by
  intro h
  unfold g2ScrapeReviews at h
  cases hf : filter_reviews_by_date now (g2Go token attempts parsePage fuel 1).2.1 s e with
  | error u => rw [hf] at h; cases h
  | ok filtered =>
    rw [hf] at h
    dsimp only at h
    injection h with h2
    subst h2
    refine ⟨filtered, rfl, ?_, ?_⟩
    · cases (g2Go token attempts parsePage fuel 1).1 <;> rfl
    · cases (g2Go token attempts parsePage fuel 1).1 <;> rfl

/-- C2: the range invariant — in a G2 result whose date bounds parse,
every review under the all_reviews key has a date within the inclusive
bounds, and every record the Capterra loop appends has a date within
its bounds (stored in the Y-m-d rendering the code writes). -/
theorem c2_range_invariant :
    (∀ (token : Option String) (attempts : Nat → Nat → AttemptR)
      (parsePage : String → G2ParseOut) (fuel : Nat) (now sd ed : DateTime) (s e : String)
      (res : List (String × JVal)) (l : List Record) (r : Record),
      parse_date now s = Except.ok (some sd) →
      parse_date now e = Except.ok (some ed) →
      g2ScrapeReviews token attempts parsePage fuel now s e = Except.ok res →
      List.lookup "all_reviews" res = some (JVal.jarr l) → r ∈ l →
      ∃ dd, parseDatePy now (recGet r "date") = Except.ok (some dd) ∧
        dtLe sd dd = true ∧ dtLe dd ed = true) ∧
    (∀ (sd ed : DateTime) (cards : List Card) (r : Record),
      r ∈ capterraProcessCards sd ed cards →
      ∃ dd, dtLe sd dd = true ∧ dtLe dd ed = true ∧ recGet r "date" = some (fmtYmd dd)) := by
  constructor
  · intro token attempts parsePage fuel now sd ed s e res l r hs he hrun hlook hm
    rcases g2Result_allReviews token attempts parsePage fuel now s e res hrun with
      ⟨filtered, hfil, hlook2, _⟩
    rw [hlook2] at hlook
    simp only [Option.some.injEq, JVal.jarr.injEq] at hlook
    rw [hlook] at hfil
    unfold filter_reviews_by_date at hfil
    rw [hs, he] at hfil
    exact filterGo_mem now sd ed _ l r hfil hm
  · intro sd ed cards r hm
    exact capterraProcess_mem sd ed cards r hm

/-- A G2 element whose review is dated inside the 2024 window. -/
def w2Elem : G2Elem := ⟨some "A", some (some "5"), some ("Good", some "x"), [], some "2024-06-15"⟩

/-- The G2 record built from that element. -/
def w2r : Record := g2MkReview w2Elem

/-- A one-page parse oracle for the C2 witness run. -/
def w2Parse : String → G2ParseOut := fun _ => G2ParseOut.pok ⟨⟨"P", "4", "1"⟩, [w2r], false⟩

/-- A Capterra card dated inside the 2024 window. -/
def w2Card : Card := ⟨some "2024-06-15", some "T", none, none, none, none, some "4"⟩

/-- C2 witness: the range invariant evaluated on a concrete one-page G2
job over the 2024 window and a concrete in-range Capterra card. -/
theorem c2_range_invariant_witness :
    (∃ dd, parseDatePy clockJan1 (recGet w2r "date") = Except.ok (some dd) ∧
      dtLe ⟨2024, 1, 1, 0⟩ dd = true ∧ dtLe dd ⟨2024, 12, 31, 0⟩ = true) ∧
    (∃ dd, dtLe ⟨2024, 1, 1, 0⟩ dd = true ∧ dtLe dd ⟨2024, 12, 31, 0⟩ = true ∧
      recGet (capterraMkRecord w2Card ⟨2024, 6, 15, 0⟩ "T") "date" = some (fmtYmd dd)) :=
  ⟨c2_range_invariant.1 none (fun _ _ => AttemptR.ok "h") w2Parse 1 clockJan1
      ⟨2024, 1, 1, 0⟩ ⟨2024, 12, 31, 0⟩ "2024-01-01" "2024-12-31"
      [("product_name", JVal.js "P"), ("stars", JVal.js "4"), ("total_reviews", JVal.js "1"),
       ("all_reviews", JVal.jarr [w2r]), ("total_scraped_reviews", JVal.jn 1)]
      [w2r] w2r rfl rfl rfl rfl (by simp),
   c2_range_invariant.2 ⟨2024, 1, 1, 0⟩ ⟨2024, 12, 31, 0⟩ [w2Card]
      (capterraMkRecord w2Card ⟨2024, 6, 15, 0⟩ "T") (by decide)⟩

/-- Dropping a review whose date does not parse: the filtering loop on
a list containing such a review runs exactly as on the list without it. -/
theorem filterGo_drop (now sd ed : DateTime) (r : Record)
    (hr : parseDatePy now (recGet r "date") = Except.ok none) :
    ∀ (l1 l2 : List Record),
      filterGo now sd ed (l1 ++ r :: l2) = filterGo now sd ed (l1 ++ l2) := by
  intro l1
  induction l1 with
  | nil =>
    intro l2
    simp only [List.nil_append]
    conv_lhs => rw [filterGo]
    rw [hr]
  | cons a t ih =>
    intro l2
    simp only [List.cons_append]
    unfold filterGo
    rw [ih l2]

/-- Dropping a Capterra card whose date does not parse: the card loop
on a list containing such a card runs exactly as on the list without
it. -/
theorem capterraProcess_drop (sd ed : DateTime) (c : Card) (ds : String)
    (hds : c.dateText = some ds) (hp : capterraParseDate ds = none) :
    ∀ (l1 l2 : List Card),
      capterraProcessCards sd ed (l1 ++ c :: l2) = capterraProcessCards sd ed (l1 ++ l2) := by
  intro l1
  induction l1 with
  | nil =>
    intro l2
    simp only [List.nil_append]
    conv_lhs => rw [capterraProcessCards]
    rw [hds]
    dsimp only
    rw [hp]
  | cons a t ih =>
    intro l2
    simp only [List.cons_append]
    unfold capterraProcessCards
    rw [ih l2]

/-- C6: a record whose date string the shared parser cannot parse is
dropped — the G2 filtering loop and the Capterra card loop both behave
on a list containing the record exactly as on the list without it, so
the record never appears in any output and the remaining records are
still processed. -/
theorem c6_unparseable_date_dropped :
    (∀ (now sd ed : DateTime) (r : Record) (l1 l2 : List Record),
      parseDatePy now (recGet r "date") = Except.ok none →
      filterGo now sd ed (l1 ++ r :: l2) = filterGo now sd ed (l1 ++ l2)) ∧
    (∀ (sd ed : DateTime) (c : Card) (ds : String) (l1 l2 : List Card),
      c.dateText = some ds → capterraParseDate ds = none →
      capterraProcessCards sd ed (l1 ++ c :: l2) = capterraProcessCards sd ed (l1 ++ l2)) := by
  constructor
  · intro now sd ed r l1 l2 hr
    exact filterGo_drop now sd ed r hr l1 l2
  · intro sd ed c ds l1 l2 hds hp
    exact capterraProcess_drop sd ed c ds hds hp l1 l2

/-- C6 witness: a garbage-dated record between two dated records is
dropped while both neighbours are still processed, for the filter loop
and for the Capterra card loop. -/
theorem c6_unparseable_date_dropped_witness :
    filterGo clockJan1 ⟨2024, 1, 1, 0⟩ ⟨2024, 12, 31, 0⟩
        [[("date", some "2024-02-02")], [("date", some "not a date")],
         [("date", some "2024-03-03")]] =
      filterGo clockJan1 ⟨2024, 1, 1, 0⟩ ⟨2024, 12, 31, 0⟩
        [[("date", some "2024-02-02")], [("date", some "2024-03-03")]] ∧
    capterraProcessCards ⟨2024, 1, 1, 0⟩ ⟨2024, 12, 31, 0⟩
        [⟨some "not a date", some "T", none, none, none, none, none⟩,
         ⟨some "2024-03-03", some "T", none, none, none, none, none⟩] =
      capterraProcessCards ⟨2024, 1, 1, 0⟩ ⟨2024, 12, 31, 0⟩
        [⟨some "2024-03-03", some "T", none, none, none, none, none⟩] :=
  ⟨c6_unparseable_date_dropped.1 clockJan1 ⟨2024, 1, 1, 0⟩ ⟨2024, 12, 31, 0⟩
      [("date", some "not a date")] [[("date", some "2024-02-02")]]
      [[("date", some "2024-03-03")]] rfl,
   c6_unparseable_date_dropped.2 ⟨2024, 1, 1, 0⟩ ⟨2024, 12, 31, 0⟩
      ⟨some "not a date", some "T", none, none, none, none, none⟩ "not a date" []
      [⟨some "2024-03-03", some "T", none, none, none, none, none⟩] rfl rfl⟩

/-- The control outcome of one G2 page: none when the fetch or parse
fails (loop break), otherwise the has_next_page flag of the parsed
page.  This is the only per-page information the pagination loop
branches on. -/
def pageCtl (token : Option String) (attempts : Nat → Nat → AttemptR)
    (parsePage : String → G2ParseOut) (p : Nat) : Option Bool :=
  match make_request token (attempts p) 5 with
  | Except.error _ => none
  | Except.ok none => none
  | Except.ok (some html) =>
    match parsePage html with
    | G2ParseOut.perr _ => none
    | G2ParseOut.pok pg => some pg.hasNext

/-- The fetched-page trace determined by the control outcomes alone. -/
def fetchedSpec (ctl : Nat → Option Bool) : Nat → Nat → List Nat
  | 0, _ => []
  | f + 1, cur =>
    match ctl cur with
    | none => [cur]
    | some false => [cur]
    | some true => cur :: fetchedSpec ctl f (cur + 1)

/-- The control outcome of a page computed from a failed fetch. -/
theorem pageCtl_of_error (token : Option String) (attempts : Nat → Nat → AttemptR)
    (parsePage : String → G2ParseOut) (p : Nat) (u : Unit)
    (hm : make_request token (attempts p) 5 = Except.error u) :
    pageCtl token attempts parsePage p = none := by
  unfold pageCtl
  rw [hm]

/-- The control outcome of a page whose fetch returned None. -/
theorem pageCtl_of_none (token : Option String) (attempts : Nat → Nat → AttemptR)
    (parsePage : String → G2ParseOut) (p : Nat)
    (hm : make_request token (attempts p) 5 = Except.ok none) :
    pageCtl token attempts parsePage p = none := by
  unfold pageCtl
  rw [hm]

/-- The control outcome of a page whose payload failed to parse. -/
theorem pageCtl_of_perr (token : Option String) (attempts : Nat → Nat → AttemptR)
    (parsePage : String → G2ParseOut) (p : Nat) (html : String) (m : String)
    (hm : make_request token (attempts p) 5 = Except.ok (some html))
    (hp : parsePage html = G2ParseOut.perr m) :
    pageCtl token attempts parsePage p = none := by
  unfold pageCtl
  rw [hm]
  dsimp only
  rw [hp]

/-- The control outcome of a successfully fetched and parsed page. -/
theorem pageCtl_of_pok (token : Option String) (attempts : Nat → Nat → AttemptR)
    (parsePage : String → G2ParseOut) (p : Nat) (html : String) (pg : G2PageData)
    (hm : make_request token (attempts p) 5 = Except.ok (some html))
    (hp : parsePage html = G2ParseOut.pok pg) :
    pageCtl token attempts parsePage p = some pg.hasNext := by
  unfold pageCtl
  rw [hm]
  dsimp only
  rw [hp]

/-- The pages the G2 loop fetches are exactly the trace of its control
outcomes. -/
theorem g2Go_fetched_eq (token : Option String) (attempts : Nat → Nat → AttemptR)
    (parsePage : String → G2ParseOut) :
    ∀ (fuel cur : Nat),
      (g2Go token attempts parsePage fuel cur).2.2 =
        fetchedSpec (pageCtl token attempts parsePage) fuel cur := by
  intro fuel
  induction fuel with
  | zero => intro cur; rfl
  | succ f ih =>
    intro cur
    unfold g2Go
    conv_rhs => rw [fetchedSpec]
    cases hm : make_request token (attempts cur) 5 with
    | error u =>
      rw [pageCtl_of_error token attempts parsePage cur u hm]
    | ok oh =>
      cases oh with
      | none =>
        rw [pageCtl_of_none token attempts parsePage cur hm]
      | some html =>
        dsimp only
        cases hp : parsePage html with
        | perr m =>
          rw [pageCtl_of_perr token attempts parsePage cur html m hm hp]
        | pok pg =>
          rw [pageCtl_of_pok token attempts parsePage cur html pg hm hp]
          dsimp only
          cases hn : pg.hasNext with
          | false => rfl
          | true =>
            dsimp only
            rw [ih (cur + 1)]
            rfl

/-- The fetched-page trace depends only pointwise on the control
outcomes. -/
theorem fetchedSpec_congr :
    ∀ (ctl1 ctl2 : Nat → Option Bool), (∀ p, ctl1 p = ctl2 p) →
      ∀ (fuel cur : Nat), fetchedSpec ctl1 fuel cur = fetchedSpec ctl2 fuel cur := by
  intro ctl1 ctl2 hc fuel
  induction fuel with
  | zero => intro cur; rfl
  | succ f ih =>
    intro cur
    unfold fetchedSpec
    rw [hc cur]
    cases ctl2 cur with
    | none => rfl
    | some b => cases b with
      | false => rfl
      | true => rw [ih (cur + 1)]

/-- Starting at its second page, the Capterra loop visits at most one
further page: the hardcoded budget stops it there. -/
theorem capterraLoop_page2_len (cards : Nat → Option (List Card)) (next : Nat → Bool)
    (sd ed : DateTime) :
    ∀ fuel, (capterraLoop cards next sd ed fuel 2).2.length ≤ 1 := by
  intro fuel
  cases fuel with
  | zero => simp [capterraLoop]
  | succ f =>
    unfold capterraLoop
    cases h2 : cards 2 with
    | none => simp
    | some cs =>
      cases cs with
      | nil => simp
      | cons c t => simp

/-- C1 amended: neither pagination loop stops at a BEFORE_RANGE record.
The pages the G2 loop fetches are fully determined by fetch success,
parse success and the has_next_page flag — two sources with the same
control outcomes but arbitrarily different record dates fetch exactly
the same pages — and the Capterra loop visits at most its hardcoded
budget of 2 pages regardless of record dates. -/
theorem c1_no_boundary_stop :
    (∀ (token1 token2 : Option String) (attempts1 attempts2 : Nat → Nat → AttemptR)
      (parse1 parse2 : String → G2ParseOut) (fuel : Nat),
      (∀ p, pageCtl token1 attempts1 parse1 p = pageCtl token2 attempts2 parse2 p) →
      g2FetchedPages token1 attempts1 parse1 fuel = g2FetchedPages token2 attempts2 parse2 fuel) ∧
    (∀ (cards : Nat → Option (List Card)) (next : Nat → Bool) (sd ed : DateTime),
      (capterraScrape cards next sd ed).2.length ≤ 2) := by
  constructor
  · intro token1 token2 attempts1 attempts2 parse1 parse2 fuel hc
    unfold g2FetchedPages
    rw [g2Go_fetched_eq, g2Go_fetched_eq]
    exact fetchedSpec_congr _ _ hc fuel 1
  · intro cards next sd ed
    unfold capterraScrape capterraLoop
    cases h1 : cards 1 with
    | none => simp
    | some cs1 =>
      cases cs1 with
      | nil => simp
      | cons c1 t1 =>
        dsimp only
        cases hn : next 1 with
        | false => simp
        | true =>
          simp only [if_true]
          rw [if_neg (by omega : ¬ (2 : Nat) < 1), if_pos (by omega : (1 : Nat) < 2)]
          dsimp only
          show (1 :: (capterraLoop cards next sd ed 2 2).2).length ≤ 2
          simp only [List.length_cons]
          have hb := capterraLoop_page2_len cards next sd ed 2
          omega

/-- A G2 review record parameterized by reviewer name and date string. -/
def g2RevOf (name ds : String) : Record :=
  g2MkReview ⟨some name, some (some "5"), some ("Good", some "x"), [], some ds⟩

/-- The newest-first three-page boundary scenario: every fetch
succeeds, page 1 is in range with a next page, page 2 straddles the
window start with a next page, page 3 is entirely before the window
with no next page. -/
def c1Attempts : Nat → Nat → AttemptR :=
  fun p _ => AttemptR.ok (match p with
    | 1 => "page1"
    | 2 => "page2"
    | _ => "page3")

/-- The parse oracle of the boundary scenario. -/
def c1Parse : String → G2ParseOut := fun h =>
  if h = "page1" then
    G2ParseOut.pok ⟨⟨"Prod", "4.5", "100"⟩, [g2RevOf "A" "2024-06-01"], true⟩
  else if h = "page2" then
    G2ParseOut.pok ⟨⟨"", "", ""⟩, [g2RevOf "B" "2024-03-01", g2RevOf "C" "2023-12-31"], true⟩
  else
    G2ParseOut.pok ⟨⟨"", "", ""⟩, [g2RevOf "D" "2023-11-01"], false⟩

/-- C1 counterexample: with the window starting 2024-01-01, page 2
already contains the BEFORE_RANGE record dated 2023-12-31, yet the G2
loop fetches page 3 — the claimed boundary stop never happens. -/
theorem c1_counterexample :
    g2FetchedPages none c1Attempts c1Parse 10 = [1, 2, 3] ∧
    parseDatePy clockJan1 (recGet (g2RevOf "C" "2023-12-31") "date") =
      Except.ok (some ⟨2023, 12, 31, 0⟩) ∧
    dtLt ⟨2023, 12, 31, 0⟩ ⟨2024, 1, 1, 0⟩ = true ∧
    parse_date clockJan1 "2024-01-01" = Except.ok (some ⟨2024, 1, 1, 0⟩) :=
  ⟨rfl, rfl, rfl, rfl⟩

/-- A one-page parse oracle used by the C1 witness, returning one
review dated in 2024. -/
def w1ParseA : String → G2ParseOut :=
  fun _ => G2ParseOut.pok ⟨⟨"P", "4", "1"⟩, [g2RevOf "A" "2024-06-01"], false⟩

/-- The same control outcomes as w1ParseA but with a differently dated
review, to exercise the date-blindness statement. -/
def w1ParseB : String → G2ParseOut :=
  fun _ => G2ParseOut.pok ⟨⟨"P", "4", "1"⟩, [g2RevOf "Z" "1999-01-01"], false⟩

/-- C1 witness: the amended statement evaluated on two concrete
sources that agree on control outcomes but differ in review dates, and
on a concrete Capterra job. -/
theorem c1_no_boundary_stop_witness :
    g2FetchedPages none (fun _ _ => AttemptR.ok "h") w1ParseA 5 =
      g2FetchedPages none (fun _ _ => AttemptR.ok "h") w1ParseB 5 ∧
    (capterraScrape (fun _ => some [w2Card]) (fun _ => true) ⟨2024, 1, 1, 0⟩
      ⟨2024, 12, 31, 0⟩).2.length ≤ 2 :=
  ⟨c1_no_boundary_stop.1 none none (fun _ _ => AttemptR.ok "h") (fun _ _ => AttemptR.ok "h")
      w1ParseA w1ParseB 5 (fun _ => rfl),
   c1_no_boundary_stop.2 (fun _ => some [w2Card]) (fun _ => true) ⟨2024, 1, 1, 0⟩
      ⟨2024, 12, 31, 0⟩⟩

/-- The duplicated review of the C3 scenario. -/
def c3r : Record :=
  g2MkReview ⟨some "Alice", some (some "5"), some ("Great", some "x"), ["Manager"],
    some "2024-06-01"⟩

/-- A one-page source that lists the same review twice. -/
def c3Parse : String → G2ParseOut :=
  fun _ => G2ParseOut.pok ⟨⟨"P", "4", "10"⟩, [c3r, c3r], false⟩

/-- The all_reviews list of the C3 scenario run. -/
def c3AllReviews : Option (List Record) :=
  match g2ScrapeReviews none (fun _ _ => AttemptR.ok "h") c3Parse 10 clockJan1
      "2024-01-01" "2024-12-31" with
  | Except.ok res =>
    match List.lookup "all_reviews" res with
    | some (JVal.jarr l) => some l
    | _ => none
  | Except.error _ => none

/-- C3 counterexample: a job whose page lists the same in-range review
twice returns both copies — they share the Deduplicator key, so the
returned result violates the no-two-records-share-a-key property, and
no seen-key set exists to drop the second copy. -/
theorem c3_counterexample :
    c3AllReviews = some [c3r, c3r] ∧
    ¬ (([c3r, c3r].map dedupKey).Nodup) := by
  constructor
  · rfl
  · decide

/-- C3 amended: the scrapers perform no deduplication — a record whose
key was already seen is appended again, so any in-range review
appearing twice in the fetched pages appears twice in the filtered
result. -/
theorem c3_no_dedup (now sd ed dd : DateTime) (r : Record) (s e : String)
    (hs : parse_date now s = Except.ok (some sd))
    (he : parse_date now e = Except.ok (some ed))
    (hd : parseDatePy now (recGet r "date") = Except.ok (some dd))
    (h1 : dtLe sd dd = true) (h2 : dtLe dd ed = true) :
    filter_reviews_by_date now [r, r] s e = Except.ok [r, r] := by
  unfold filter_reviews_by_date
  rw [hs, he]
  have hc : (dtLe sd dd && dtLe dd ed) = true := by rw [h1, h2]; rfl
  simp only [filterGo, hd, hc, if_true]

/-- C3 witness: the duplicated record passes the date filter twice in a
concrete run. -/
theorem c3_no_dedup_witness :
    filter_reviews_by_date clockJan1 [c3r, c3r] "2024-01-01" "2024-12-31" =
      Except.ok [c3r, c3r] :=
  c3_no_dedup clockJan1 ⟨2024, 1, 1, 0⟩ ⟨2024, 12, 31, 0⟩ ⟨2024, 6, 1, 0⟩ c3r
    "2024-01-01" "2024-12-31" rfl rfl rfl rfl rfl

/-- The in-range page-1 review of the C5 scenario. -/
def c5r : Record :=
  g2MkReview ⟨some "Bob", some (some "4"), some ("Nice", some "y"), [], some "2024-05-05"⟩

/-- A source whose page 1 succeeds with a next page and whose page 2
fails at every one of the five attempts of the retry loop. -/
def c5Attempts : Nat → Nat → AttemptR :=
  fun p _ => if p = 1 then AttemptR.ok "h1" else AttemptR.httpFail

/-- The parse oracle of the C5 scenario. -/
def c5Parse : String → G2ParseOut := fun h =>
  if h = "h1" then G2ParseOut.pok ⟨⟨"P", "4", "10"⟩, [c5r], true⟩
  else G2ParseOut.perr "bad"

/-- The result dict of the C5 scenario run. -/
def c5Result : Option (List (String × JVal)) :=
  match g2ScrapeReviews none c5Attempts c5Parse 10 clockJan1 "2024-01-01" "2024-12-31" with
  | Except.ok res => some res
  | Except.error _ => none

/-- C5 counterexample: page 2 is fetched and every retry fails, yet the
job returns a normal result — it carries no error key for the caller to
see, while the page-1 review is present — so the exhausted fetch
failure is silently absorbed into a success-shaped result rather than
surfacing as STOPPED_ERROR. -/
theorem c5_counterexample :
    c5Result.bind (List.lookup "error") = none ∧
    c5Result ≠ none ∧
    c5Result.bind (List.lookup "all_reviews") = some (JVal.jarr [c5r]) ∧
    g2FetchedPages none c5Attempts c5Parse 10 = [1, 2] := by
  refine ⟨rfl, ?_, rfl, rfl⟩
  intro h
  cases h

/-- C5 amended: when a page fetch still fails after exhausting all
retries the loop breaks and the job returns a normal result dict: the
reviews accumulated from earlier pages are filtered and returned under
all_reviews, but no error key is ever present, so the failure is not
visible to the caller as an error state. -/
theorem c5_failure_not_surfaced (token : Option String) (attempts : Nat → Nat → AttemptR)
    (parsePage : String → G2ParseOut) (fuel : Nat) (now : DateTime) (s e : String)
    (res : List (String × JVal))
    (h : g2ScrapeReviews token attempts parsePage fuel now s e = Except.ok res) :
    List.lookup "error" res = none ∧
    ∃ filtered,
      filter_reviews_by_date now (g2Go token attempts parsePage fuel 1).2.1 s e =
        Except.ok filtered ∧
      List.lookup "all_reviews" res = some (JVal.jarr filtered) := by
  rcases g2Result_allReviews token attempts parsePage fuel now s e res h with
    ⟨filtered, hfil, hlook, herr⟩
  exact ⟨herr, filtered, hfil, hlook⟩

/-- C5 witness: the amended statement evaluated on the concrete
failing-page-2 scenario. -/
theorem c5_failure_not_surfaced_witness :
    List.lookup "error"
        [("product_name", JVal.js "P"), ("stars", JVal.js "4"), ("total_reviews", JVal.js "10"),
         ("all_reviews", JVal.jarr [c5r]), ("total_scraped_reviews", JVal.jn 1)] = none ∧
    ∃ filtered,
      filter_reviews_by_date clockJan1 (g2Go none c5Attempts c5Parse 10 1).2.1
          "2024-01-01" "2024-12-31" = Except.ok filtered ∧
      List.lookup "all_reviews"
          [("product_name", JVal.js "P"), ("stars", JVal.js "4"),
           ("total_reviews", JVal.js "10"), ("all_reviews", JVal.jarr [c5r]),
           ("total_scraped_reviews", JVal.jn 1)] = some (JVal.jarr filtered) :=
  c5_failure_not_surfaced none c5Attempts c5Parse 10 clockJan1 "2024-01-01" "2024-12-31"
    [("product_name", JVal.js "P"), ("stars", JVal.js "4"), ("total_reviews", JVal.js "10"),
     ("all_reviews", JVal.jarr [c5r]), ("total_scraped_reviews", JVal.jn 1)] rfl

/-- A concrete G2 element for the C7 scenario. -/
def c7Elem : G2Elem :=
  ⟨some "A", some (some "5"), some ("Good", some "x"), [], some "2024-05-05"⟩

/-- A concrete Capterra card for the C7 scenario. -/
def c7Card : Card := ⟨some "May 1, 2024", some "T", none, none, none, none, some "4"⟩

/-- C7 counterexample: the two scrapers do not emit the same key set,
and neither emits pros or cons keys — the G2 record lacks a source key
and carries a review_link key instead of pros and cons, while the
Capterra record lacks the reviewer_name, description and profile_title
keys and stores its text under review. -/
theorem c7_counterexample :
    keysOf (g2MkReview c7Elem) ≠ keysOf (capterraMkRecord c7Card ⟨2024, 5, 1, 0⟩ "T") ∧
    ¬ ("pros" ∈ keysOf (g2MkReview c7Elem)) ∧
    ¬ ("cons" ∈ keysOf (g2MkReview c7Elem)) ∧
    ¬ ("pros" ∈ keysOf (capterraMkRecord c7Card ⟨2024, 5, 1, 0⟩ "T")) ∧
    ¬ ("reviewer_name" ∈ keysOf (capterraMkRecord c7Card ⟨2024, 5, 1, 0⟩ "T")) := by
  refine ⟨?_, ?_, ?_, ?_, ?_⟩ <;> decide

/-- C7 amended: each scraper emits a fixed key set, but the sets
differ: every G2 record carries exactly reviewer_name, title,
description, rating, date, profile_title and review_link, while every
Capterra record carries exactly source, title, review, date and rating;
pros and cons never appear as keys (Capterra folds them into the review
text). -/
theorem c7_per_source_key_sets (e : G2Elem) (c : Card) (dt : DateTime) (t : String) :
    keysOf (g2MkReview e) =
      ["reviewer_name", "title", "description", "rating", "date", "profile_title",
       "review_link"] ∧
    keysOf (capterraMkRecord c dt t) = ["source", "title", "review", "date", "rating"] :=
  ⟨rfl, rfl⟩

/-- C7 witness: the per-source key sets evaluated on concrete records. -/
theorem c7_per_source_key_sets_witness :
    keysOf (g2MkReview c7Elem) =
      ["reviewer_name", "title", "description", "rating", "date", "profile_title",
       "review_link"] ∧
    keysOf (capterraMkRecord c7Card ⟨2024, 5, 1, 0⟩ "T") =
      ["source", "title", "review", "date", "rating"] :=
  c7_per_source_key_sets c7Elem c7Card ⟨2024, 5, 1, 0⟩ "T"
